import Mathlib

/-!
# Virtual Memory Simulator — verification development

Shallow embedding of the simulation logic of `src/src/App.tsx` (first source
variant): the placement engine (`handleDropToRAM`, `handleDropToVirtual`,
`handleDropToSecondary`, `toggleProgramStatus`) and the progression controller
(`startSimulation`, `resetSimulation`, the game-state machine driven by UI
events).

Modelling notes:
* React `useState` fields become fields of `SimState`; each event handler
  becomes a pure function `SimState → ... → SimState`.
* The simulated latency (`setTimeout`) is collapsed: while a move is pending
  (`isLoading = true`) every handler returns early, and no other mutation can
  interleave before the timer callback runs, so a handler together with its
  timer callback is one atomic state transition.  The `setTimeout` durations
  are recorded by the `...Delay` constants.
* `setMessage` calls are modelled by the structured `Msg` type: each distinct
  message site of the source gets its own constructor.
* Display-only fields (`color`, level `name`/`description`) and the transient
  `draggedItem`/`loadingMessage` fields do not influence the container logic
  and are omitted; a drop event carries the dragged `(item, source)` pair
  directly, as captured by `handleDragStart`.
-/

/-- Runtime program record (`interface Program` of the source; `color` is
display-only and omitted). `status` is the optional `status?: string` field. -/
structure Program where
  id : String
  name : String
  size : Nat
  removable : Bool
  status : Option String
deriving DecidableEq, Repr

/-- The `draggedItem` pair set by `handleDragStart`. -/
structure DraggedItem where
  item : Program
  source : String
deriving DecidableEq, Repr

/-- One entry of `CHALLENGE_LEVELS` (display-only `name`/`description` omitted). -/
structure Level where
  level : Nat
  ram : Nat
  programs : List String
deriving DecidableEq, Repr

/-- The static `PROGRAMS` catalog of the source. -/
def PROGRAMS : List Program :=
  [ { id := "os", name := "Operating System", size := 1, removable := false, status := none },
    { id := "browser", name := "Web Browser", size := 1, removable := true, status := some "open" },
    { id := "word", name := "Word Processor", size := 2, removable := true, status := some "open" },
    { id := "music", name := "Music Player", size := 1, removable := true, status := some "open" },
    { id := "video", name := "Video Editor", size := 3, removable := true, status := some "open" },
    { id := "game", name := "Game", size := 4, removable := true, status := some "open" },
    { id := "email", name := "Email Client", size := 1, removable := true, status := some "open" } ]

/-- The static `CHALLENGE_LEVELS` list of the source. -/
def CHALLENGE_LEVELS : List Level :=
  [ { level := 1, ram := 8, programs := ["os", "browser", "email", "music"] },
    { level := 2, ram := 8, programs := ["os", "browser", "word", "video", "music", "game"] },
    { level := 3, ram := 8, programs := ["os", "browser", "music", "game", "email", "word"] },
    { level := 4, ram := 8, programs := ["os", "browser", "word", "email", "music", "video", "game"] },
    { level := 5, ram := 4, programs := ["os", "browser", "word", "music", "email", "video"] },
    { level := 6, ram := 2, programs := ["os", "browser", "email"] },
    { level := 7, ram := 2, programs := ["os", "browser", "music", "browser", "email", "browser", "music"] } ]

/-- Structured stand-in for the `setMessage` strings: one constructor per
distinct message site of the source handlers. -/
inductive Msg where
  /-- Initial empty message / `setMessage('')`. -/
  | noMessage : Msg
  /-- Program too large for this RAM capacity. -/
  | hardLimit (programId : String) : Msg
  /-- Impossible even after freeing inactive programs. -/
  | unsatisfiable (programId : String) : Msg
  /-- RAM full, move inactive programs to Virtual Memory first. -/
  | needsSwap (programId : String) : Msg
  /-- RAM full and no inactive programs to move. -/
  | noInactiveToFree (programId : String) : Msg
  /-- Wrong program: the queue front is expected next. -/
  | outOfOrder (expectedId : String) : Msg
  /-- Loaded into RAM from Secondary Storage. -/
  | loadedFromSecondary (programId : String) : Msg
  /-- Swapped back into RAM from Virtual Memory. -/
  | swappedFromVirtual (programId : String) : Msg
  /-- Only programs in RAM can be moved to Virtual Memory. -/
  | invalidSource : Msg
  /-- The Operating System cannot be moved to Virtual Memory. -/
  | notRemovable : Msg
  /-- Make the program inactive before moving it to Virtual Memory. -/
  | mustBeInactiveFirst : Msg
  /-- Moved to Virtual Memory. -/
  | movedToVirtual (programId : String) : Msg
  /-- Inactive programs should be moved to Virtual Memory, not closed. -/
  | inactiveMustSwap : Msg
  /-- Closed and removed from RAM. -/
  | closedFromRam (programId : String) : Msg
  /-- Closed and removed from Virtual Memory. -/
  | closedFromVirtual (programId : String) : Msg
  /-- Programs move to Secondary Storage only when closing. -/
  | onlyWhenClosing : Msg
  /-- Status-toggle feedback of `toggleProgramStatus`. -/
  | toggledMsg (programId : String) : Msg
deriving DecidableEq, Repr

/-- The `useState` fields of the component that the container logic reads or
writes. -/
structure SimState where
  gameState : String
  gameMode : Option String
  currentLevel : Nat
  ram : List Program
  virtualMemory : List Program
  secondaryStorage : List Program
  currentInstruction : String
  programQueue : List String
  score : Nat
  message : Msg
  ramCapacity : Nat
  isLoading : Bool
deriving DecidableEq, Repr

/-- Initial `useState` values. -/
def initState : SimState :=
  { gameState := "start", gameMode := none, currentLevel := 1, ram := [],
    virtualMemory := [], secondaryStorage := [], currentInstruction := "",
    programQueue := [], score := 0, message := Msg.noMessage, ramCapacity := 4,
    isLoading := false }

/-- `ram.reduce((sum, p) => sum + p.size, 0)` of the source. -/
def ramSize (l : List Program) : Nat :=
  l.foldl (fun sum p => sum + p.size) 0

/-- The `currentRAMCapacity` expression of the source:
`gameMode === 'challenges' ? CHALLENGE_LEVELS[currentLevel - 1].ram : ramCapacity`. -/
def currentRAMCapacity (s : SimState) : Nat :=
  if s.gameMode = some "challenges" then
    ((CHALLENGE_LEVELS[s.currentLevel - 1]?).map Level.ram).getD 0
  else s.ramCapacity

/-- `ram.filter(p => !p.removable || p.status === 'open')` of the source. -/
def activePrograms (l : List Program) : List Program :=
  l.filter (fun p => !p.removable || p.status == some "open")

/-- `ram.filter(p => p.removable && p.status === 'inactive')` of the source. -/
def inactivePrograms (l : List Program) : List Program :=
  l.filter (fun p => p.removable && p.status == some "inactive")

/-- Startup instruction text set by `startSimulation`. -/
def startupInstruction : String :=
  "Computer is starting up. The Operating System needs to load into RAM. Drag the OS from Secondary Storage to RAM."

/-- Level-complete instruction text (challenges mode). -/
def challengeCompleteInstruction : String :=
  "Level Complete! All programs loaded successfully!"

/-- Queue-empty instruction text (freestyle mode). -/
def freestyleCompleteInstruction : String :=
  "All programs opened! Now try making some programs inactive (click them), then move them to Virtual Memory. You can also close active programs by dragging them to Secondary Storage."

/-- Next-program instruction: `Open ${nextProgram.name} (${nextProgram.size}GB).`;
the instruction is left unchanged when the lookup fails (the `if (nextProgram)`
guard of the source). -/
def nextInstruction (newQueue : List String) (old : String) : String :=
  match PROGRAMS.find? (fun p => p.id == newQueue.headD "") with
  | some p => "Open " ++ p.name ++ " (" ++ toString p.size ++ "GB)."
  | none => old

/-- `setTimeout` duration of a RAM load from Secondary Storage. -/
def secondaryLoadDelay : Nat := 2000

/-- `setTimeout` duration of a RAM load from Virtual Memory. -/
def virtualLoadDelay : Nat := 1000

/-- `setTimeout` duration of a close to Secondary Storage. -/
def closeDelay : Nat := 1000

/-- The move to Virtual Memory commits with no `setTimeout` (instant). -/
def virtualMoveDelay : Nat := 0

/-- `handleDropToRAM` of the source (first variant), with the `setTimeout`
callback collapsed into the same transition.  Secondary Storage is not
touched by the commit (the original remains in storage). -/
def handleDropToRAM (s : SimState) (d : DraggedItem) : SimState :=
  if s.isLoading then s else
  let item := d.item
  let cap := currentRAMCapacity s
  if item.size > cap then
    { s with message := Msg.hardLimit item.id }
  else if ramSize s.ram + item.size > cap then
    let inactiveSize := ramSize (inactivePrograms s.ram)
    let activeSize := ramSize (activePrograms s.ram)
    if activeSize + item.size > cap then
      { s with message := Msg.unsatisfiable item.id }
    else if inactiveSize > 0 then
      { s with message := Msg.needsSwap item.id }
    else
      { s with message := Msg.noInactiveToFree item.id }
  else if 0 < s.programQueue.length ∧ item.id ≠ s.programQueue.headD "" then
    { s with message := Msg.outOfOrder (s.programQueue.headD "") }
  else if d.source = "secondary" then
    let newQueue := s.programQueue.drop 1
    { s with
      ram := s.ram ++ [{ item with status := some "open" }],
      score := s.score + 10,
      message := Msg.loadedFromSecondary item.id,
      programQueue := newQueue,
      currentInstruction :=
        if 0 < newQueue.length then nextInstruction newQueue s.currentInstruction
        else if s.gameMode = some "challenges" then challengeCompleteInstruction
        else freestyleCompleteInstruction,
      gameState := if 0 < newQueue.length then s.gameState else "complete" }
  else if d.source = "virtual" then
    let base := { s with
      ram := s.ram ++ [{ item with status := some "open" }],
      virtualMemory := s.virtualMemory.filter (fun p => p.id != item.id),
      score := s.score + 5,
      message := Msg.swappedFromVirtual item.id }
    if s.gameMode = some "challenges" then
      let newQueue := s.programQueue.drop 1
      { base with
        programQueue := newQueue,
        currentInstruction :=
          if 0 < newQueue.length then nextInstruction newQueue s.currentInstruction
          else challengeCompleteInstruction,
        gameState := if 0 < newQueue.length then s.gameState else "complete" }
    else base
  else s

/-- `handleDropToVirtual` of the source: the commit is instant (no timer). -/
def handleDropToVirtual (s : SimState) (d : DraggedItem) : SimState :=
  if s.isLoading then s else
  let item := d.item
  if d.source ≠ "ram" then
    { s with message := Msg.invalidSource }
  else if item.removable = false then
    { s with message := Msg.notRemovable }
  else if item.status = some "open" then
    { s with message := Msg.mustBeInactiveFirst }
  else
    { s with
      virtualMemory := s.virtualMemory ++ [item],
      ram := s.ram.filter (fun p => p.id != item.id),
      score := s.score + 5,
      message := Msg.movedToVirtual item.id }

/-- `handleDropToSecondary` of the source (first variant): a close removes the
program from its source container and does not insert it into Secondary
Storage. -/
def handleDropToSecondary (s : SimState) (d : DraggedItem) : SimState :=
  if s.isLoading then s else
  let item := d.item
  if d.source = "ram" ∧ item.status = some "open" then
    { s with
      ram := s.ram.filter (fun p => p.id != item.id),
      score := s.score + 3,
      message := Msg.closedFromRam item.id }
  else if d.source = "ram" ∧ item.status = some "inactive" then
    { s with message := Msg.inactiveMustSwap }
  else if d.source = "virtual" then
    { s with
      virtualMemory := s.virtualMemory.filter (fun p => p.id != item.id),
      score := s.score + 3,
      message := Msg.closedFromVirtual item.id }
  else
    { s with message := Msg.onlyWhenClosing }

/-- `toggleProgramStatus` of the source: flips the status of the matching RAM
entry; the feedback message is produced only when the program is found. -/
def toggleProgramStatus (s : SimState) (programId : String) : SimState :=
  let newRam := s.ram.map (fun p =>
    if p.id == programId then
      { p with status := if p.status == some "open" then some "inactive" else some "open" }
    else p)
  match s.ram.find? (fun p => p.id == programId) with
  | some p => { s with ram := newRam, message := Msg.toggledMsg p.id }
  | none => { s with ram := newRam }

/-- `startSimulation` of the source, with the zero-delay `setTimeout`
collapsed.  In challenges mode the level data is read twice (capacity, then
containers); both reads see the same `CHALLENGE_LEVELS` entry. -/
def startSimulation (s : SimState) (levelNum : Option Nat) : SimState :=
  let effectiveLevel := levelNum.getD s.currentLevel
  if s.gameMode = some "challenges" then
    match CHALLENGE_LEVELS[effectiveLevel - 1]? with
    | some level =>
      let uniqueProgramIds := level.programs.eraseDups
      let levelPrograms := PROGRAMS.filter (fun p => uniqueProgramIds.contains p.id)
      { s with
        ramCapacity := level.ram,
        secondaryStorage := levelPrograms,
        programQueue := level.programs,
        ram := [], virtualMemory := [],
        gameState := "running", score := 0, message := Msg.noMessage,
        currentInstruction := startupInstruction }
    | none => s
  else
    let availablePrograms := PROGRAMS.filter (fun p => decide (p.size ≤ s.ramCapacity))
    { s with
      secondaryStorage := availablePrograms,
      programQueue := availablePrograms.map (fun p => p.id),
      ram := [], virtualMemory := [],
      gameState := "running", score := 0, message := Msg.noMessage,
      currentInstruction := startupInstruction }

/-- `resetSimulation` of the source: returns to the menu and clears the queue
and instruction; the containers are left as they are. -/
def resetSimulation (s : SimState) : SimState :=
  { s with
    gameState := if s.gameMode = some "challenges" then "challenges" else "start",
    currentInstruction := "",
    programQueue := [] }

/-- User intents of the UI.  Drop events carry the `(item, source)` pair that
`handleDragStart` would have recorded. -/
inductive Event where
  | chooseChallenges
  | chooseFreestyle
  | chooseCapacity (n : Nat)
  | backToStart
  | startFreestyle
  | selectLevel (n : Nat)
  | resetClick
  | nextLevelClick
  | dropToRAM (d : DraggedItem)
  | dropToVirtual (d : DraggedItem)
  | dropToSecondary (d : DraggedItem)
  | clickProgram (programId : String)
deriving Repr

/-- The simulation containers and drop targets are rendered only in the
`running` and `complete` game states. -/
def inSim (s : SimState) : Prop :=
  s.gameState = "running" ∨ s.gameState = "complete"

instance (s : SimState) : Decidable (inSim s) := by
  unfold inSim; infer_instance

/-- One UI event.  Each case fires exactly the handler the corresponding
widget of the source wires up, guarded by the game state in which that widget
is rendered. -/
def step (s : SimState) (e : Event) : SimState :=
  match e with
  | Event.chooseChallenges =>
      if s.gameState = "start" then
        { s with gameMode := some "challenges", gameState := "challenges" }
      else s
  | Event.chooseFreestyle =>
      if s.gameState = "start" then
        { s with gameMode := some "freestyle", gameState := "freestyle-setup" }
      else s
  | Event.chooseCapacity n =>
      if s.gameState = "freestyle-setup" ∧ (n = 2 ∨ n = 4 ∨ n = 8) then
        { s with ramCapacity := n }
      else s
  | Event.backToStart =>
      if s.gameState = "freestyle-setup" ∨ s.gameState = "challenges" then
        { s with gameState := "start" }
      else s
  | Event.startFreestyle =>
      if s.gameState = "freestyle-setup" then startSimulation s none else s
  | Event.selectLevel n =>
      if s.gameState = "challenges" ∧ 1 ≤ n ∧ n ≤ CHALLENGE_LEVELS.length then
        startSimulation { s with currentLevel := n } (some n)
      else s
  | Event.resetClick =>
      if inSim s then resetSimulation s else s
  | Event.nextLevelClick =>
      if s.gameState = "complete" ∧ s.gameMode = some "challenges" ∧
          s.currentLevel < CHALLENGE_LEVELS.length then
        startSimulation { s with currentLevel := s.currentLevel + 1 }
          (some (s.currentLevel + 1))
      else s
  | Event.dropToRAM d => if inSim s then handleDropToRAM s d else s
  | Event.dropToVirtual d => if inSim s then handleDropToVirtual s d else s
  | Event.dropToSecondary d => if inSim s then handleDropToSecondary s d else s
  | Event.clickProgram pid =>
      if inSim s then
        match s.ram.find? (fun p => p.id == pid) with
        | some p => if p.removable then toggleProgramStatus s pid else s
        | none => s
      else s

/-- Run a list of events from the initial state. -/
def run (es : List Event) : SimState :=
  es.foldl step initState

/-- States reachable from the initial state through UI events. -/
inductive Reachable : SimState → Prop where
  | init : Reachable initState
  | next : ∀ {s : SimState} (e : Event), Reachable s → Reachable (step s e)

/-- A RAM-load request that passes every check of `handleDropToRAM` and whose
source container is Secondary Storage or Virtual Memory, issued while the drop
target is rendered: exactly the requests whose `step` commits a load into RAM. -/
def RamLoadCommitted (s : SimState) (d : DraggedItem) : Prop :=
  inSim s ∧
  ¬ d.item.size > currentRAMCapacity s ∧
  ¬ ramSize s.ram + d.item.size > currentRAMCapacity s ∧
  ¬ (0 < s.programQueue.length ∧ d.item.id ≠ s.programQueue.headD "") ∧
  (d.source = "secondary" ∨ d.source = "virtual")

instance (s : SimState) (d : DraggedItem) : Decidable (RamLoadCommitted s d) := by
  unfold RamLoadCommitted; infer_instance

/-- Messages of the failure taxonomy (each produced by a rejected move). -/
def isFailureMsg : Msg → Bool
  | Msg.hardLimit _ => true
  | Msg.unsatisfiable _ => true
  | Msg.needsSwap _ => true
  | Msg.noInactiveToFree _ => true
  | Msg.outOfOrder _ => true
  | Msg.invalidSource => true
  | Msg.notRemovable => true
  | Msg.mustBeInactiveFirst => true
  | Msg.inactiveMustSwap => true
  | Msg.onlyWhenClosing => true
  | _ => false

/-- The observable state a failed move must leave intact: the three containers,
the Task Queue, the score and the phase. -/
def coreUnchanged (s t : SimState) : Prop :=
  t.ram = s.ram ∧ t.virtualMemory = s.virtualMemory ∧
  t.secondaryStorage = s.secondaryStorage ∧ t.programQueue = s.programQueue ∧
  t.score = s.score ∧ t.gameState = s.gameState

/-- The catalog entry of the non-removable operating system. -/
def osProgram : Program :=
  { id := "os", name := "Operating System", size := 1, removable := false, status := none }

/-- The catalog entry of the web browser. -/
def browserProgram : Program :=
  { id := "browser", name := "Web Browser", size := 1, removable := true, status := some "open" }

/-- The RAM-resident copy of the operating system after a committed load. -/
def osOpenProgram : Program := { osProgram with status := some "open" }

/-- Demo session: enter challenges mode and start level 6 (2 GB of RAM,
programs os, browser, email). -/
def demoEvents2 : List Event := [Event.chooseChallenges, Event.selectLevel 6]

/-- Demo session: additionally load the operating system into RAM. -/
def demoEvents3 : List Event := demoEvents2 ++ [Event.dropToRAM ⟨osProgram, "secondary"⟩]

/-- Demo session: additionally load the web browser into RAM (RAM now full). -/
def demoEvents4 : List Event := demoEvents3 ++ [Event.dropToRAM ⟨browserProgram, "secondary"⟩]

/-- Demo state after starting level 6. -/
def demoState2 : SimState := run demoEvents2

/-- Demo state with the operating system resident in RAM. -/
def demoState3 : SimState := run demoEvents3

/-- Demo state with RAM full (os and browser, 2 of 2 GB) and queue `[email]`. -/
def demoState4 : SimState := run demoEvents4

/-- The catalog entry of the email client. -/
def emailProgram : Program :=
  { id := "email", name := "Email Client", size := 1, removable := true, status := some "open" }

/-- The RAM-resident browser after being toggled inactive. -/
def browserInactive : Program := { browserProgram with status := some "inactive" }

/-- Demo session: additionally click the browser, toggling it inactive. -/
def demoEvents5 : List Event := demoEvents4 ++ [Event.clickProgram "browser"]

/-- Demo state with the browser inactive in RAM. -/
def demoState5 : SimState := run demoEvents5

/-! ## Basic arithmetic lemmas about `ramSize` -/

theorem ramSize_eq_sum (l : List Program) :
    ramSize l = (l.map Program.size).sum := by
  have aux : ∀ (l : List Program) (a : Nat),
      l.foldl (fun sum p => sum + p.size) a = a + (l.map Program.size).sum := by
    intro l
    induction l with
    | nil => intro a; simp
    | cons p t ih =>
        intro a
        simp only [List.foldl_cons, List.map_cons, List.sum_cons]
        rw [ih]
        omega
  simpa [ramSize] using aux l 0

theorem ramSize_append (l : List Program) (p : Program) :
    ramSize (l ++ [p]) = ramSize l + p.size := by
  simp [ramSize_eq_sum]

theorem ramSize_filter_le (f : Program → Bool) (l : List Program) :
    ramSize (l.filter f) ≤ ramSize l := by
  simp only [ramSize_eq_sum]
  induction l with
  | nil => simp
  | cons p t ih =>
      rw [List.filter_cons]
      by_cases h : f p = true
      · rw [if_pos h]
        simp only [List.map_cons, List.sum_cons]
        omega
      · rw [if_neg h]
        simp only [List.map_cons, List.sum_cons]
        omega

theorem ramSize_map_of_size_eq (l : List Program) (g : Program → Program)
    (h : ∀ p, (g p).size = p.size) : ramSize (l.map g) = ramSize l := by
  simp only [ramSize_eq_sum]
  induction l with
  | nil => simp
  | cons p t ih =>
      simp only [List.map_cons, List.sum_cons, h p, ih]

theorem currentRAMCapacity_congr {s t : SimState}
    (hm : t.gameMode = s.gameMode) (hl : t.currentLevel = s.currentLevel)
    (hc : t.ramCapacity = s.ramCapacity) :
    currentRAMCapacity t = currentRAMCapacity s := by
  unfold currentRAMCapacity
  rw [hm, hl, hc]

/-! ## Branch characterizations of the placement-engine handlers

One lemma per branch of the source handlers; the hypotheses are the branch
conditions exactly as the source tests them. -/

theorem dropRAM_busy {s : SimState} (d : DraggedItem) (h : s.isLoading = true) :
    handleDropToRAM s d = s := by
  simp [handleDropToRAM, h]

theorem dropRAM_hardLimit {s : SimState} (d : DraggedItem)
    (hl : s.isLoading = false)
    (h1 : d.item.size > currentRAMCapacity s) :
    handleDropToRAM s d = { s with message := Msg.hardLimit d.item.id } := by
  simp [handleDropToRAM, hl, h1]

theorem dropRAM_unsatisfiable {s : SimState} (d : DraggedItem)
    (hl : s.isLoading = false)
    (h1 : ¬ d.item.size > currentRAMCapacity s)
    (h2 : ramSize s.ram + d.item.size > currentRAMCapacity s)
    (h3 : ramSize (activePrograms s.ram) + d.item.size > currentRAMCapacity s) :
    handleDropToRAM s d = { s with message := Msg.unsatisfiable d.item.id } := by
  simp [handleDropToRAM, hl, h1, h2, h3]

theorem dropRAM_needsSwap {s : SimState} (d : DraggedItem)
    (hl : s.isLoading = false)
    (h1 : ¬ d.item.size > currentRAMCapacity s)
    (h2 : ramSize s.ram + d.item.size > currentRAMCapacity s)
    (h3 : ¬ ramSize (activePrograms s.ram) + d.item.size > currentRAMCapacity s)
    (h4 : 0 < ramSize (inactivePrograms s.ram)) :
    handleDropToRAM s d = { s with message := Msg.needsSwap d.item.id } := by
  simp [handleDropToRAM, hl, h1, h2, h3, h4]

theorem dropRAM_noInactiveToFree {s : SimState} (d : DraggedItem)
    (hl : s.isLoading = false)
    (h1 : ¬ d.item.size > currentRAMCapacity s)
    (h2 : ramSize s.ram + d.item.size > currentRAMCapacity s)
    (h3 : ¬ ramSize (activePrograms s.ram) + d.item.size > currentRAMCapacity s)
    (h4 : ¬ 0 < ramSize (inactivePrograms s.ram)) :
    handleDropToRAM s d = { s with message := Msg.noInactiveToFree d.item.id } := by
  simp [handleDropToRAM, hl, h1, h2, h3, h4]

theorem dropRAM_outOfOrder {s : SimState} (d : DraggedItem)
    (hl : s.isLoading = false)
    (h1 : ¬ d.item.size > currentRAMCapacity s)
    (h2 : ¬ ramSize s.ram + d.item.size > currentRAMCapacity s)
    (h5 : 0 < s.programQueue.length ∧ d.item.id ≠ s.programQueue.headD "") :
    handleDropToRAM s d = { s with message := Msg.outOfOrder (s.programQueue.headD "") } := by
  simp only [handleDropToRAM]
  rw [if_neg (by simp [hl]), if_neg h1, if_neg h2, if_pos h5]

theorem dropRAM_secondary {s : SimState} (d : DraggedItem)
    (hl : s.isLoading = false)
    (h1 : ¬ d.item.size > currentRAMCapacity s)
    (h2 : ¬ ramSize s.ram + d.item.size > currentRAMCapacity s)
    (h5 : ¬ (0 < s.programQueue.length ∧ d.item.id ≠ s.programQueue.headD ""))
    (hsrc : d.source = "secondary") :
    handleDropToRAM s d = { s with
      ram := s.ram ++ [{ d.item with status := some "open" }],
      score := s.score + 10,
      message := Msg.loadedFromSecondary d.item.id,
      programQueue := s.programQueue.drop 1,
      currentInstruction :=
        if 0 < (s.programQueue.drop 1).length then
          nextInstruction (s.programQueue.drop 1) s.currentInstruction
        else if s.gameMode = some "challenges" then challengeCompleteInstruction
        else freestyleCompleteInstruction,
      gameState :=
        if 0 < (s.programQueue.drop 1).length then s.gameState else "complete" } := by
  simp only [handleDropToRAM]
  rw [if_neg (by simp [hl]), if_neg h1, if_neg h2, if_neg h5, if_pos hsrc]

theorem dropRAM_virtual_challenges {s : SimState} (d : DraggedItem)
    (hl : s.isLoading = false)
    (h1 : ¬ d.item.size > currentRAMCapacity s)
    (h2 : ¬ ramSize s.ram + d.item.size > currentRAMCapacity s)
    (h5 : ¬ (0 < s.programQueue.length ∧ d.item.id ≠ s.programQueue.headD ""))
    (hsrc : d.source = "virtual")
    (hmode : s.gameMode = some "challenges") :
    handleDropToRAM s d = { s with
      ram := s.ram ++ [{ d.item with status := some "open" }],
      virtualMemory := s.virtualMemory.filter (fun p => p.id != d.item.id),
      score := s.score + 5,
      message := Msg.swappedFromVirtual d.item.id,
      programQueue := s.programQueue.drop 1,
      currentInstruction :=
        if 0 < (s.programQueue.drop 1).length then
          nextInstruction (s.programQueue.drop 1) s.currentInstruction
        else challengeCompleteInstruction,
      gameState :=
        if 0 < (s.programQueue.drop 1).length then s.gameState else "complete" } := by
  simp only [handleDropToRAM]
  rw [if_neg (by simp [hl]), if_neg h1, if_neg h2, if_neg h5,
    if_neg (by rw [hsrc]; decide), if_pos hsrc, if_pos hmode]

theorem dropRAM_virtual_freestyle {s : SimState} (d : DraggedItem)
    (hl : s.isLoading = false)
    (h1 : ¬ d.item.size > currentRAMCapacity s)
    (h2 : ¬ ramSize s.ram + d.item.size > currentRAMCapacity s)
    (h5 : ¬ (0 < s.programQueue.length ∧ d.item.id ≠ s.programQueue.headD ""))
    (hsrc : d.source = "virtual")
    (hmode : ¬ s.gameMode = some "challenges") :
    handleDropToRAM s d = { s with
      ram := s.ram ++ [{ d.item with status := some "open" }],
      virtualMemory := s.virtualMemory.filter (fun p => p.id != d.item.id),
      score := s.score + 5,
      message := Msg.swappedFromVirtual d.item.id } := by
  simp only [handleDropToRAM]
  rw [if_neg (by simp [hl]), if_neg h1, if_neg h2, if_neg h5,
    if_neg (by rw [hsrc]; decide), if_pos hsrc]
  exact if_neg hmode

theorem dropRAM_noSource {s : SimState} (d : DraggedItem)
    (hl : s.isLoading = false)
    (h1 : ¬ d.item.size > currentRAMCapacity s)
    (h2 : ¬ ramSize s.ram + d.item.size > currentRAMCapacity s)
    (h5 : ¬ (0 < s.programQueue.length ∧ d.item.id ≠ s.programQueue.headD ""))
    (hs1 : ¬ d.source = "secondary") (hs2 : ¬ d.source = "virtual") :
    handleDropToRAM s d = s := by
  simp only [handleDropToRAM]
  rw [if_neg (by simp [hl]), if_neg h1, if_neg h2, if_neg h5, if_neg hs1, if_neg hs2]

theorem dropVirtual_busy {s : SimState} (d : DraggedItem) (h : s.isLoading = true) :
    handleDropToVirtual s d = s := by
  simp [handleDropToVirtual, h]

theorem dropVirtual_invalidSource {s : SimState} (d : DraggedItem)
    (hl : s.isLoading = false) (hsrc : d.source ≠ "ram") :
    handleDropToVirtual s d = { s with message := Msg.invalidSource } := by
  simp [handleDropToVirtual, hl, hsrc]

theorem dropVirtual_notRemovable {s : SimState} (d : DraggedItem)
    (hl : s.isLoading = false) (hsrc : d.source = "ram")
    (hrem : d.item.removable = false) :
    handleDropToVirtual s d = { s with message := Msg.notRemovable } := by
  simp [handleDropToVirtual, hl, hsrc, hrem]

theorem dropVirtual_mustBeInactive {s : SimState} (d : DraggedItem)
    (hl : s.isLoading = false) (hsrc : d.source = "ram")
    (hrem : d.item.removable = true) (hst : d.item.status = some "open") :
    handleDropToVirtual s d = { s with message := Msg.mustBeInactiveFirst } := by
  simp [handleDropToVirtual, hl, hsrc, hrem, hst]

theorem dropVirtual_commit {s : SimState} (d : DraggedItem)
    (hl : s.isLoading = false) (hsrc : d.source = "ram")
    (hrem : d.item.removable = true) (hst : ¬ d.item.status = some "open") :
    handleDropToVirtual s d = { s with
      virtualMemory := s.virtualMemory ++ [d.item],
      ram := s.ram.filter (fun p => p.id != d.item.id),
      score := s.score + 5,
      message := Msg.movedToVirtual d.item.id } := by
  simp [handleDropToVirtual, hl, hsrc, hrem, hst]

theorem dropSecondary_busy {s : SimState} (d : DraggedItem) (h : s.isLoading = true) :
    handleDropToSecondary s d = s := by
  simp [handleDropToSecondary, h]

theorem dropSecondary_closeRam {s : SimState} (d : DraggedItem)
    (hl : s.isLoading = false) (hsrc : d.source = "ram")
    (hst : d.item.status = some "open") :
    handleDropToSecondary s d = { s with
      ram := s.ram.filter (fun p => p.id != d.item.id),
      score := s.score + 3,
      message := Msg.closedFromRam d.item.id } := by
  simp [handleDropToSecondary, hl, hsrc, hst]

theorem dropSecondary_inactiveMustSwap {s : SimState} (d : DraggedItem)
    (hl : s.isLoading = false) (hsrc : d.source = "ram")
    (hst : d.item.status = some "inactive") :
    handleDropToSecondary s d = { s with message := Msg.inactiveMustSwap } := by
  simp [handleDropToSecondary, hl, hsrc, hst]

theorem dropSecondary_closeVirtual {s : SimState} (d : DraggedItem)
    (hl : s.isLoading = false) (hsrc : d.source = "virtual") :
    handleDropToSecondary s d = { s with
      virtualMemory := s.virtualMemory.filter (fun p => p.id != d.item.id),
      score := s.score + 3,
      message := Msg.closedFromVirtual d.item.id } := by
  simp [handleDropToSecondary, hl, hsrc]

theorem dropSecondary_onlyWhenClosing {s : SimState} (d : DraggedItem)
    (hl : s.isLoading = false)
    (h1 : ¬ (d.source = "ram" ∧ d.item.status = some "open"))
    (h2 : ¬ (d.source = "ram" ∧ d.item.status = some "inactive"))
    (h3 : ¬ d.source = "virtual") :
    handleDropToSecondary s d = { s with message := Msg.onlyWhenClosing } := by
  simp [handleDropToSecondary, hl, h1, h2, h3]

/-! ## Frame facts for the simple handlers -/

theorem dropVirtual_gameState (s : SimState) (d : DraggedItem) :
    (handleDropToVirtual s d).gameState = s.gameState := by
  simp only [handleDropToVirtual]
  split_ifs <;> rfl

theorem dropVirtual_programQueue (s : SimState) (d : DraggedItem) :
    (handleDropToVirtual s d).programQueue = s.programQueue := by
  simp only [handleDropToVirtual]
  split_ifs <;> rfl

theorem dropSecondary_gameState (s : SimState) (d : DraggedItem) :
    (handleDropToSecondary s d).gameState = s.gameState := by
  simp only [handleDropToSecondary]
  split_ifs <;> rfl

theorem dropSecondary_programQueue (s : SimState) (d : DraggedItem) :
    (handleDropToSecondary s d).programQueue = s.programQueue := by
  simp only [handleDropToSecondary]
  split_ifs <;> rfl

theorem toggle_gameState (s : SimState) (pid : String) :
    (toggleProgramStatus s pid).gameState = s.gameState := by
  simp only [toggleProgramStatus]
  split <;> rfl

theorem toggle_programQueue (s : SimState) (pid : String) :
    (toggleProgramStatus s pid).programQueue = s.programQueue := by
  simp only [toggleProgramStatus]
  split <;> rfl

/-! ## The reachability invariant -/

/-- Facts about reachable states that the claims need: no move is pending
between events, the capacity and level index are in range, the phase agrees
with the queue (`running` iff work remains among the in-simulation phases),
RAM respects the capacity, the capacity expression agrees with the
`ramCapacity` field while the simulation is rendered, and Virtual Memory
holds only removable programs. -/
structure SimInv (s : SimState) : Prop where
  loading : s.isLoading = false
  capPos : 1 ≤ s.ramCapacity
  levelLB : 1 ≤ s.currentLevel
  levelUB : s.currentLevel ≤ CHALLENGE_LEVELS.length
  runQueue : s.gameState = "running" → s.programQueue ≠ []
  completeQueue : s.gameState = "complete" → s.programQueue = []
  ramBound : inSim s → ramSize s.ram ≤ currentRAMCapacity s
  capEq : inSim s → currentRAMCapacity s = s.ramCapacity
  vmRemovable : ∀ p ∈ s.virtualMemory, p.removable = true

theorem inv_with_message {s : SimState} (m : Msg) (h : SimInv s) :
    SimInv { s with message := m } :=
  ⟨h.loading, h.capPos, h.levelLB, h.levelUB, h.runQueue, h.completeQueue,
   h.ramBound, h.capEq, h.vmRemovable⟩

theorem challengeLevels_facts :
    ∀ lv ∈ CHALLENGE_LEVELS, 1 ≤ lv.ram ∧ lv.programs ≠ [] := by decide

theorem availablePrograms_ne_nil (cap : Nat) (h : 1 ≤ cap) :
    PROGRAMS.filter (fun p => decide (p.size ≤ cap)) ≠ [] := by
  have hos : osProgram ∈ PROGRAMS.filter (fun p => decide (p.size ≤ cap)) := by
    apply List.mem_filter.mpr
    refine ⟨by decide, ?_⟩
    simpa [osProgram] using h
  exact List.ne_nil_of_mem hos

theorem inv_startSimulation {s : SimState} (lv : Option Nat)
    (hload : s.isLoading = false) (hcap : 1 ≤ s.ramCapacity)
    (hl1 : 1 ≤ s.currentLevel) (hl2 : s.currentLevel ≤ CHALLENGE_LEVELS.length)
    (heff : lv.getD s.currentLevel = s.currentLevel) :
    SimInv (startSimulation s lv) := by
  have hidx : s.currentLevel - 1 < CHALLENGE_LEVELS.length := by omega
  simp only [startSimulation, heff]
  by_cases hmode : s.gameMode = some "challenges"
  · rw [if_pos hmode, List.getElem?_eq_getElem hidx]
    have hmem : CHALLENGE_LEVELS[s.currentLevel - 1] ∈ CHALLENGE_LEVELS :=
      List.getElem_mem hidx
    obtain ⟨hram, hprog⟩ := challengeLevels_facts _ hmem
    refine ⟨hload, hram, hl1, hl2, ?_, ?_, ?_, ?_, ?_⟩
    · intro _; exact hprog
    · intro hc; exact absurd (show ("running" : String) = "complete" from hc) (by decide)
    · intro _; exact Nat.zero_le _
    · intro _
      simp only [currentRAMCapacity, hmode, if_pos, List.getElem?_eq_getElem hidx,
        Option.map_some', Option.getD_some]
    · intro p hp; exact absurd hp (List.not_mem_nil p)
  · rw [if_neg hmode]
    refine ⟨hload, hcap, hl1, hl2, ?_, ?_, ?_, ?_, ?_⟩
    · intro _
      intro hnil
      exact availablePrograms_ne_nil s.ramCapacity hcap (List.map_eq_nil_iff.mp hnil)
    · intro hc; exact absurd (show ("running" : String) = "complete" from hc) (by decide)
    · intro _; exact Nat.zero_le _
    · intro _
      simp [currentRAMCapacity, hmode]
    · intro p hp; exact absurd hp (List.not_mem_nil p)

theorem inv_handleDropToRAM {s : SimState} (d : DraggedItem)
    (hs : inSim s) (h : SimInv s) : SimInv (handleDropToRAM s d) := by
  have hsz : ({ d.item with status := some "open" } : Program).size = d.item.size := rfl
  by_cases h1 : d.item.size > currentRAMCapacity s
  · rw [dropRAM_hardLimit d h.loading h1]; exact inv_with_message _ h
  by_cases h2 : ramSize s.ram + d.item.size > currentRAMCapacity s
  · by_cases h3 : ramSize (activePrograms s.ram) + d.item.size > currentRAMCapacity s
    · rw [dropRAM_unsatisfiable d h.loading h1 h2 h3]; exact inv_with_message _ h
    by_cases h4 : 0 < ramSize (inactivePrograms s.ram)
    · rw [dropRAM_needsSwap d h.loading h1 h2 h3 h4]; exact inv_with_message _ h
    · rw [dropRAM_noInactiveToFree d h.loading h1 h2 h3 h4]; exact inv_with_message _ h
  by_cases h5 : 0 < s.programQueue.length ∧ d.item.id ≠ s.programQueue.headD ""
  · rw [dropRAM_outOfOrder d h.loading h1 h2 h5]; exact inv_with_message _ h
  by_cases hsec : d.source = "secondary"
  · rw [dropRAM_secondary d h.loading h1 h2 h5 hsec]
    refine ⟨h.loading, h.capPos, h.levelLB, h.levelUB, ?_, ?_, ?_, ?_, h.vmRemovable⟩
    · show (if 0 < (s.programQueue.drop 1).length then s.gameState else "complete") = "running" →
        s.programQueue.drop 1 ≠ []
      intro hg
      by_cases hq : 0 < (s.programQueue.drop 1).length
      · exact List.length_pos.mp hq
      · rw [if_neg hq] at hg
        exact absurd hg (by decide)
    · show (if 0 < (s.programQueue.drop 1).length then s.gameState else "complete") = "complete" →
        s.programQueue.drop 1 = []
      intro hg
      by_cases hq : 0 < (s.programQueue.drop 1).length
      · rw [if_pos hq] at hg
        rw [h.completeQueue hg]
        rfl
      · exact List.eq_nil_of_length_eq_zero (by omega)
    · intro _
      show ramSize (s.ram ++ [{ d.item with status := some "open" }]) ≤ currentRAMCapacity s
      rw [ramSize_append, hsz]
      omega
    · intro _
      show currentRAMCapacity s = s.ramCapacity
      exact h.capEq hs
  by_cases hvirt : d.source = "virtual"
  · by_cases hmode : s.gameMode = some "challenges"
    · rw [dropRAM_virtual_challenges d h.loading h1 h2 h5 hvirt hmode]
      refine ⟨h.loading, h.capPos, h.levelLB, h.levelUB, ?_, ?_, ?_, ?_, ?_⟩
      · show (if 0 < (s.programQueue.drop 1).length then s.gameState else "complete") = "running" →
          s.programQueue.drop 1 ≠ []
        intro hg
        by_cases hq : 0 < (s.programQueue.drop 1).length
        · exact List.length_pos.mp hq
        · rw [if_neg hq] at hg
          exact absurd hg (by decide)
      · show (if 0 < (s.programQueue.drop 1).length then s.gameState else "complete") = "complete" →
          s.programQueue.drop 1 = []
        intro hg
        by_cases hq : 0 < (s.programQueue.drop 1).length
        · rw [if_pos hq] at hg
          rw [h.completeQueue hg]
          rfl
        · exact List.eq_nil_of_length_eq_zero (by omega)
      · intro _
        show ramSize (s.ram ++ [{ d.item with status := some "open" }]) ≤ currentRAMCapacity s
        rw [ramSize_append, hsz]
        omega
      · intro _
        show currentRAMCapacity s = s.ramCapacity
        exact h.capEq hs
      · intro p hp
        exact h.vmRemovable p (List.mem_of_mem_filter hp)
    · rw [dropRAM_virtual_freestyle d h.loading h1 h2 h5 hvirt hmode]
      refine ⟨h.loading, h.capPos, h.levelLB, h.levelUB, h.runQueue, h.completeQueue,
        ?_, ?_, ?_⟩
      · intro _
        show ramSize (s.ram ++ [{ d.item with status := some "open" }]) ≤ currentRAMCapacity s
        rw [ramSize_append, hsz]
        omega
      · intro _
        show currentRAMCapacity s = s.ramCapacity
        exact h.capEq hs
      · intro p hp
        exact h.vmRemovable p (List.mem_of_mem_filter hp)
  · rw [dropRAM_noSource d h.loading h1 h2 h5 hsec hvirt]
    exact h

theorem inv_handleDropToVirtual {s : SimState} (d : DraggedItem)
    (h : SimInv s) : SimInv (handleDropToVirtual s d) := by
  by_cases hsrc : d.source = "ram"
  case neg =>
    rw [dropVirtual_invalidSource d h.loading hsrc]
    exact inv_with_message _ h
  by_cases hrem : d.item.removable = false
  · rw [dropVirtual_notRemovable d h.loading hsrc hrem]
    exact inv_with_message _ h
  have hremT : d.item.removable = true := by
    cases hb : d.item.removable
    · exact absurd hb hrem
    · rfl
  by_cases hst : d.item.status = some "open"
  · rw [dropVirtual_mustBeInactive d h.loading hsrc hremT hst]
    exact inv_with_message _ h
  · rw [dropVirtual_commit d h.loading hsrc hremT hst]
    refine ⟨h.loading, h.capPos, h.levelLB, h.levelUB, h.runQueue, h.completeQueue,
      ?_, ?_, ?_⟩
    · intro hg
      show ramSize (s.ram.filter (fun p => p.id != d.item.id)) ≤ currentRAMCapacity s
      exact le_trans (ramSize_filter_le _ s.ram) (h.ramBound hg)
    · intro hg
      show currentRAMCapacity s = s.ramCapacity
      exact h.capEq hg
    · intro p hp
      show p.removable = true
      rcases List.mem_append.mp hp with hp1 | hp1
      · exact h.vmRemovable p hp1
      · rw [List.mem_singleton.mp hp1]
        exact hremT

theorem inv_handleDropToSecondary {s : SimState} (d : DraggedItem)
    (h : SimInv s) : SimInv (handleDropToSecondary s d) := by
  by_cases hA : d.source = "ram" ∧ d.item.status = some "open"
  · rw [dropSecondary_closeRam d h.loading hA.1 hA.2]
    refine ⟨h.loading, h.capPos, h.levelLB, h.levelUB, h.runQueue, h.completeQueue,
      ?_, ?_, h.vmRemovable⟩
    · intro hg
      show ramSize (s.ram.filter (fun p => p.id != d.item.id)) ≤ currentRAMCapacity s
      exact le_trans (ramSize_filter_le _ s.ram) (h.ramBound hg)
    · intro hg
      show currentRAMCapacity s = s.ramCapacity
      exact h.capEq hg
  by_cases hB : d.source = "ram" ∧ d.item.status = some "inactive"
  · rw [dropSecondary_inactiveMustSwap d h.loading hB.1 hB.2]
    exact inv_with_message _ h
  by_cases hC : d.source = "virtual"
  · rw [dropSecondary_closeVirtual d h.loading hC]
    refine ⟨h.loading, h.capPos, h.levelLB, h.levelUB, h.runQueue, h.completeQueue,
      h.ramBound, h.capEq, ?_⟩
    intro p hp
    exact h.vmRemovable p (List.mem_of_mem_filter hp)
  · rw [dropSecondary_onlyWhenClosing d h.loading hA hB hC]
    exact inv_with_message _ h

theorem inv_toggleProgramStatus {s : SimState} (pid : String)
    (h : SimInv s) : SimInv (toggleProgramStatus s pid) := by
  have hsize : ramSize (s.ram.map (fun p =>
      if p.id == pid then
        { p with status := if p.status == some "open" then some "inactive" else some "open" }
      else p)) = ramSize s.ram := by
    apply ramSize_map_of_size_eq
    intro p
    by_cases hp : (p.id == pid) = true
    · rw [if_pos hp]
    · rw [if_neg hp]
  simp only [toggleProgramStatus]
  split
  · refine ⟨h.loading, h.capPos, h.levelLB, h.levelUB, h.runQueue, h.completeQueue,
      ?_, h.capEq, h.vmRemovable⟩
    intro hg
    show ramSize (s.ram.map _) ≤ currentRAMCapacity s
    rw [hsize]
    exact h.ramBound hg
  · refine ⟨h.loading, h.capPos, h.levelLB, h.levelUB, h.runQueue, h.completeQueue,
      ?_, h.capEq, h.vmRemovable⟩
    intro hg
    show ramSize (s.ram.map _) ≤ currentRAMCapacity s
    rw [hsize]
    exact h.ramBound hg

theorem inv_resetSimulation {s : SimState} (h : SimInv s) :
    SimInv (resetSimulation s) := by
  have hgs : (resetSimulation s).gameState = "challenges" ∨
      (resetSimulation s).gameState = "start" := by
    simp only [resetSimulation]
    by_cases hm : s.gameMode = some "challenges"
    · left; rw [if_pos hm]
    · right; rw [if_neg hm]
  refine ⟨h.loading, h.capPos, h.levelLB, h.levelUB, ?_, ?_, ?_, ?_, h.vmRemovable⟩
  · intro hg
    rcases hgs with hgs | hgs <;> rw [hgs] at hg <;> exact absurd hg (by decide)
  · intro _
    rfl
  · intro hg
    exfalso
    rcases hg with hg | hg <;> rcases hgs with hgs | hgs <;> rw [hgs] at hg <;>
      exact absurd hg (by decide)
  · intro hg
    exfalso
    rcases hg with hg | hg <;> rcases hgs with hgs | hgs <;> rw [hgs] at hg <;>
      exact absurd hg (by decide)

theorem inv_step {s : SimState} (e : Event) (h : SimInv s) : SimInv (step s e) := by
  cases e with
  | chooseChallenges =>
      simp only [step]
      by_cases hg : s.gameState = "start"
      · rw [if_pos hg]
        refine ⟨h.loading, h.capPos, h.levelLB, h.levelUB, ?_, ?_, ?_, ?_, h.vmRemovable⟩
        · intro hgs; exact absurd (show ("challenges" : String) = "running" from hgs) (by decide)
        · intro hgs; exact absurd (show ("challenges" : String) = "complete" from hgs) (by decide)
        · intro hgs
          rcases hgs with hgs | hgs
          · exact absurd (show ("challenges" : String) = "running" from hgs) (by decide)
          · exact absurd (show ("challenges" : String) = "complete" from hgs) (by decide)
        · intro hgs
          rcases hgs with hgs | hgs
          · exact absurd (show ("challenges" : String) = "running" from hgs) (by decide)
          · exact absurd (show ("challenges" : String) = "complete" from hgs) (by decide)
      · rw [if_neg hg]; exact h
  | chooseFreestyle =>
      simp only [step]
      by_cases hg : s.gameState = "start"
      · rw [if_pos hg]
        refine ⟨h.loading, h.capPos, h.levelLB, h.levelUB, ?_, ?_, ?_, ?_, h.vmRemovable⟩
        · intro hgs; exact absurd (show ("freestyle-setup" : String) = "running" from hgs) (by decide)
        · intro hgs; exact absurd (show ("freestyle-setup" : String) = "complete" from hgs) (by decide)
        · intro hgs
          rcases hgs with hgs | hgs
          · exact absurd (show ("freestyle-setup" : String) = "running" from hgs) (by decide)
          · exact absurd (show ("freestyle-setup" : String) = "complete" from hgs) (by decide)
        · intro hgs
          rcases hgs with hgs | hgs
          · exact absurd (show ("freestyle-setup" : String) = "running" from hgs) (by decide)
          · exact absurd (show ("freestyle-setup" : String) = "complete" from hgs) (by decide)
      · rw [if_neg hg]; exact h
  | chooseCapacity n =>
      simp only [step]
      by_cases hg : s.gameState = "freestyle-setup" ∧ (n = 2 ∨ n = 4 ∨ n = 8)
      · rw [if_pos hg]
        refine ⟨h.loading, ?_, h.levelLB, h.levelUB, h.runQueue, h.completeQueue, ?_, ?_, h.vmRemovable⟩
        · show 1 ≤ n
          rcases hg.2 with rfl | rfl | rfl <;> decide
        · intro hgs
          exfalso
          rcases hgs with hgs | hgs <;> rw [hg.1] at hgs <;> exact absurd hgs (by decide)
        · intro hgs
          exfalso
          rcases hgs with hgs | hgs <;> rw [hg.1] at hgs <;> exact absurd hgs (by decide)
      · rw [if_neg hg]; exact h
  | backToStart =>
      simp only [step]
      by_cases hg : s.gameState = "freestyle-setup" ∨ s.gameState = "challenges"
      · rw [if_pos hg]
        refine ⟨h.loading, h.capPos, h.levelLB, h.levelUB, ?_, ?_, ?_, ?_, h.vmRemovable⟩
        · intro hgs; exact absurd (show ("start" : String) = "running" from hgs) (by decide)
        · intro hgs; exact absurd (show ("start" : String) = "complete" from hgs) (by decide)
        · intro hgs
          rcases hgs with hgs | hgs
          · exact absurd (show ("start" : String) = "running" from hgs) (by decide)
          · exact absurd (show ("start" : String) = "complete" from hgs) (by decide)
        · intro hgs
          rcases hgs with hgs | hgs
          · exact absurd (show ("start" : String) = "running" from hgs) (by decide)
          · exact absurd (show ("start" : String) = "complete" from hgs) (by decide)
      · rw [if_neg hg]; exact h
  | startFreestyle =>
      simp only [step]
      by_cases hg : s.gameState = "freestyle-setup"
      · rw [if_pos hg]
        exact inv_startSimulation none h.loading h.capPos h.levelLB h.levelUB rfl
      · rw [if_neg hg]; exact h
  | selectLevel n =>
      simp only [step]
      by_cases hg : s.gameState = "challenges" ∧ 1 ≤ n ∧ n ≤ CHALLENGE_LEVELS.length
      · rw [if_pos hg]
        exact inv_startSimulation (s := { s with currentLevel := n }) (some n)
          h.loading h.capPos hg.2.1 hg.2.2 rfl
      · rw [if_neg hg]; exact h
  | resetClick =>
      simp only [step]
      by_cases hg : inSim s
      · rw [if_pos hg]; exact inv_resetSimulation h
      · rw [if_neg hg]; exact h
  | nextLevelClick =>
      simp only [step]
      by_cases hg : s.gameState = "complete" ∧ s.gameMode = some "challenges" ∧
          s.currentLevel < CHALLENGE_LEVELS.length
      · rw [if_pos hg]
        exact inv_startSimulation (s := { s with currentLevel := s.currentLevel + 1 })
          (some (s.currentLevel + 1)) h.loading h.capPos
          (show 1 ≤ s.currentLevel + 1 by omega)
          (show s.currentLevel + 1 ≤ CHALLENGE_LEVELS.length by
            have := hg.2.2; omega) rfl
      · rw [if_neg hg]; exact h
  | dropToRAM d =>
      simp only [step]
      by_cases hg : inSim s
      · rw [if_pos hg]; exact inv_handleDropToRAM d hg h
      · rw [if_neg hg]; exact h
  | dropToVirtual d =>
      simp only [step]
      by_cases hg : inSim s
      · rw [if_pos hg]; exact inv_handleDropToVirtual d h
      · rw [if_neg hg]; exact h
  | dropToSecondary d =>
      simp only [step]
      by_cases hg : inSim s
      · rw [if_pos hg]; exact inv_handleDropToSecondary d h
      · rw [if_neg hg]; exact h
  | clickProgram pid =>
      simp only [step]
      by_cases hg : inSim s
      · rw [if_pos hg]
        split
        · split
          · exact inv_toggleProgramStatus pid h
          · exact h
        · exact h
      · rw [if_neg hg]; exact h

theorem inv_initState : SimInv initState := by
  constructor <;> decide

theorem reachable_inv {s : SimState} (h : Reachable s) : SimInv s := by
  induction h with
  | init => exact inv_initState
  | next e _ ih => exact inv_step e ih

theorem reachable_foldl (es : List Event) {s : SimState} (h : Reachable s) :
    Reachable (es.foldl step s) := by
  induction es generalizing s with
  | nil => simpa using h
  | cons e es ih => exact ih (Reachable.next e h)

theorem reachable_run (es : List Event) : Reachable (run es) :=
  reachable_foldl es Reachable.init

theorem startSimulation_gameState (s : SimState) (lv : Option Nat) :
    (startSimulation s lv).gameState = "running" ∨ startSimulation s lv = s := by
  simp only [startSimulation]
  by_cases hmode : s.gameMode = some "challenges"
  · rw [if_pos hmode]
    cases hlev : CHALLENGE_LEVELS[(lv.getD s.currentLevel) - 1]? with
    | none => right; rfl
    | some lvl => left; rfl
  · rw [if_neg hmode]; left; rfl

/-! ## Claims -/

/-- C1 counterexample: in the reachable state `demoState3` the non-removable
operating system sits in RAM with status `open`; a `target = SecondaryStorage`
move for it from RAM nevertheless succeeds: it is removed from RAM (RAM becomes
empty) and 3 points are awarded, contradicting the claim that the non-removable
program is never removed from RAM. -/
theorem C1_counterexample :
    Reachable demoState3 ∧
    osOpenProgram ∈ demoState3.ram ∧
    (step demoState3 (Event.dropToSecondary ⟨osOpenProgram, "ram"⟩)).message =
      Msg.closedFromRam "os" ∧
    (step demoState3 (Event.dropToSecondary ⟨osOpenProgram, "ram"⟩)).ram = [] ∧
    (step demoState3 (Event.dropToSecondary ⟨osOpenProgram, "ram"⟩)).score =
      demoState3.score + 3 :=
  ⟨reachable_run demoEvents3, by decide, by decide, by decide, by decide⟩

/-- C1 (amended): in every reachable state the non-removable program is never
present in Virtual Memory and every `target = VirtualMemory` request for it
from RAM fails with `NotRemovable`; however a `target = SecondaryStorage`
request for it from RAM with status `open` succeeds, removing it from RAM and
awarding 3 points. -/
theorem C1_amended_os_protection (s : SimState) (hr : Reachable s) (d : DraggedItem)
    (hnr : d.item.removable = false) :
    (∀ p ∈ s.virtualMemory, p.removable = true) ∧
    (d.source = "ram" →
      handleDropToVirtual s d = { s with message := Msg.notRemovable }) ∧
    (d.source = "ram" → d.item.status = some "open" →
      (handleDropToSecondary s d).ram = s.ram.filter (fun p => p.id != d.item.id) ∧
      (handleDropToSecondary s d).score = s.score + 3) := by
  have h := reachable_inv hr
  refine ⟨h.vmRemovable, ?_, ?_⟩
  · intro hsrc
    exact dropVirtual_notRemovable d h.loading hsrc hnr
  · intro hsrc hst
    rw [dropSecondary_closeRam d h.loading hsrc hst]
    exact ⟨rfl, rfl⟩

/-- Witness for the amended C1 at the concrete reachable state `demoState3`. -/
theorem C1_amended_witness :
    (∀ p ∈ demoState3.virtualMemory, p.removable = true) ∧
    (handleDropToVirtual demoState3 ⟨osOpenProgram, "ram"⟩ =
      { demoState3 with message := Msg.notRemovable }) ∧
    ((handleDropToSecondary demoState3 ⟨osOpenProgram, "ram"⟩).ram =
      demoState3.ram.filter (fun p => p.id != "os")) :=
  let h := C1_amended_os_protection demoState3 (reachable_run demoEvents3)
    ⟨osOpenProgram, "ram"⟩ rfl
  ⟨h.1, h.2.1 rfl, (h.2.2 rfl rfl).1⟩

/-- C2: in every reachable state in which the simulation is running (so after
any sequence of committed moves from the empty containers), the sum of `size`
over the RAM contents is at most `ramCapacity`. -/
theorem C2_ram_within_capacity (s : SimState) (hr : Reachable s) (hs : inSim s) :
    ramSize s.ram ≤ s.ramCapacity := by
  have h := reachable_inv hr
  have hb := h.ramBound hs
  rw [h.capEq hs] at hb
  exact hb

/-- Witness for C2 at the concrete reachable state `demoState4` (RAM full). -/
theorem C2_ram_within_capacity_witness :
    inSim demoState4 ∧ ramSize demoState4.ram ≤ demoState4.ramCapacity :=
  ⟨by decide, C2_ram_within_capacity demoState4 (reachable_run demoEvents4) (by decide)⟩

/-- C3 counterexample: `demoState4` is reachable with non-empty Task Queue
`[email]` and full RAM; a `target = RAM` request for the os (id differs from
the queue front) fails with `Unsatisfiable`, not with `OutOfOrder` — the
capacity checks run before the order check, so the failure kind is not
`OutOfOrder` regardless of capacity. -/
theorem C3_counterexample :
    Reachable demoState4 ∧
    demoState4.programQueue = ["email"] ∧
    osProgram.id ≠ "email" ∧
    (step demoState4 (Event.dropToRAM ⟨osProgram, "secondary"⟩)).message =
      Msg.unsatisfiable "os" ∧
    (step demoState4 (Event.dropToRAM ⟨osProgram, "secondary"⟩)).message ≠
      Msg.outOfOrder "email" :=
  ⟨reachable_run demoEvents4, by decide, by decide, by decide, by decide⟩

/-- C3 (amended): when the Task Queue is non-empty and the dragged program's
id differs from the queue front, a `target = RAM` request fails with
`OutOfOrder` naming the queue front, provided the preceding capacity checks
pass (the program fits the capacity and the current usage). -/
theorem C3_amended_outOfOrder (s : SimState) (d : DraggedItem)
    (hl : s.isLoading = false)
    (h1 : ¬ d.item.size > currentRAMCapacity s)
    (h2 : ¬ ramSize s.ram + d.item.size > currentRAMCapacity s)
    (hq : 0 < s.programQueue.length)
    (hid : d.item.id ≠ s.programQueue.headD "") :
    handleDropToRAM s d =
      { s with message := Msg.outOfOrder (s.programQueue.headD "") } :=
  dropRAM_outOfOrder d hl h1 h2 ⟨hq, hid⟩

/-- Witness for the amended C3: in `demoState3` the queue front is `browser`;
requesting `email` fails with `OutOfOrder browser`. -/
theorem C3_amended_witness :
    handleDropToRAM demoState3 ⟨emailProgram, "secondary"⟩ =
      { demoState3 with message := Msg.outOfOrder "browser" } :=
  C3_amended_outOfOrder demoState3 ⟨emailProgram, "secondary"⟩
    (by decide) (by decide) (by decide) (by decide) (by decide)

/-- C4: the failure kind of a `target = RAM` request follows the source's
decision tree: `HardLimit` when the size alone exceeds the capacity; otherwise,
when usage plus size exceeds the capacity, `Unsatisfiable` when the active
programs (status `open` or non-removable) plus the new program exceed the
capacity, `NeedsSwap` when some inactive (removable, status `inactive`) size
is positive, and `NoInactiveToFree` otherwise. -/
theorem C4_failure_decision_tree (s : SimState) (d : DraggedItem)
    (hl : s.isLoading = false) :
    (d.item.size > currentRAMCapacity s →
      handleDropToRAM s d = { s with message := Msg.hardLimit d.item.id }) ∧
    (¬ d.item.size > currentRAMCapacity s →
      ramSize s.ram + d.item.size > currentRAMCapacity s →
      (ramSize (activePrograms s.ram) + d.item.size > currentRAMCapacity s →
        handleDropToRAM s d = { s with message := Msg.unsatisfiable d.item.id }) ∧
      (¬ ramSize (activePrograms s.ram) + d.item.size > currentRAMCapacity s →
        0 < ramSize (inactivePrograms s.ram) →
        handleDropToRAM s d = { s with message := Msg.needsSwap d.item.id }) ∧
      (¬ ramSize (activePrograms s.ram) + d.item.size > currentRAMCapacity s →
        ¬ 0 < ramSize (inactivePrograms s.ram) →
        handleDropToRAM s d = { s with message := Msg.noInactiveToFree d.item.id })) :=
  ⟨fun h1 => dropRAM_hardLimit d hl h1,
   fun h1 h2 =>
    ⟨fun h3 => dropRAM_unsatisfiable d hl h1 h2 h3,
     fun h3 h4 => dropRAM_needsSwap d hl h1 h2 h3 h4,
     fun h3 h4 => dropRAM_noInactiveToFree d hl h1 h2 h3 h4⟩⟩

/-- Witness for C4: with RAM full of active programs in `demoState4`, a second
os request fails with `Unsatisfiable`. -/
theorem C4_failure_decision_tree_witness :
    handleDropToRAM demoState4 ⟨osProgram, "secondary"⟩ =
      { demoState4 with message := Msg.unsatisfiable "os" } :=
  (((C4_failure_decision_tree demoState4 ⟨osProgram, "secondary"⟩ (by decide)).2
    (by decide) (by decide)).1 (by decide))

/-- C5: a committed `target = RAM` move inserts a copy with status `open` into
RAM; from Secondary Storage it awards 10 points and consumes one queue entry
in both modes; from Virtual Memory it removes the original from Virtual
Memory, awards 5 points, and consumes a queue entry only in challenges mode.
Secondary Storage is untouched either way. -/
theorem C5_commit_effects (s : SimState) (d : DraggedItem)
    (hl : s.isLoading = false)
    (h1 : ¬ d.item.size > currentRAMCapacity s)
    (h2 : ¬ ramSize s.ram + d.item.size > currentRAMCapacity s)
    (h5 : ¬ (0 < s.programQueue.length ∧ d.item.id ≠ s.programQueue.headD "")) :
    (d.source = "secondary" →
      (handleDropToRAM s d).ram = s.ram ++ [{ d.item with status := some "open" }] ∧
      (handleDropToRAM s d).score = s.score + 10 ∧
      (handleDropToRAM s d).programQueue = s.programQueue.drop 1 ∧
      (handleDropToRAM s d).virtualMemory = s.virtualMemory ∧
      (handleDropToRAM s d).secondaryStorage = s.secondaryStorage) ∧
    (d.source = "virtual" →
      (handleDropToRAM s d).ram = s.ram ++ [{ d.item with status := some "open" }] ∧
      (handleDropToRAM s d).virtualMemory =
        s.virtualMemory.filter (fun p => p.id != d.item.id) ∧
      (handleDropToRAM s d).score = s.score + 5 ∧
      (handleDropToRAM s d).programQueue =
        (if s.gameMode = some "challenges" then s.programQueue.drop 1
         else s.programQueue) ∧
      (handleDropToRAM s d).secondaryStorage = s.secondaryStorage) := by
  constructor
  · intro hsrc
    rw [dropRAM_secondary d hl h1 h2 h5 hsrc]
    exact ⟨rfl, rfl, rfl, rfl, rfl⟩
  · intro hsrc
    by_cases hmode : s.gameMode = some "challenges"
    · rw [dropRAM_virtual_challenges d hl h1 h2 h5 hsrc hmode, if_pos hmode]
      exact ⟨rfl, rfl, rfl, rfl, rfl⟩
    · rw [dropRAM_virtual_freestyle d hl h1 h2 h5 hsrc hmode, if_neg hmode]
      exact ⟨rfl, rfl, rfl, rfl, rfl⟩

/-- Witness for C5: loading the browser (the queue front) from Secondary
Storage in `demoState3`. -/
theorem C5_commit_effects_witness :
    (handleDropToRAM demoState3 ⟨browserProgram, "secondary"⟩).ram =
      demoState3.ram ++ [{ browserProgram with status := some "open" }] ∧
    (handleDropToRAM demoState3 ⟨browserProgram, "secondary"⟩).score =
      demoState3.score + 10 ∧
    (handleDropToRAM demoState3 ⟨browserProgram, "secondary"⟩).programQueue =
      demoState3.programQueue.drop 1 :=
  let h := (C5_commit_effects demoState3 ⟨browserProgram, "secondary"⟩
    (by decide) (by decide) (by decide) (by decide)).1 rfl
  ⟨h.1, h.2.1, h.2.2.1⟩

/-- C6: a `target = VirtualMemory` request fails with `InvalidSource` unless
the source is RAM, with `NotRemovable` for the non-removable program, with
`MustBeInactiveFirst` while the status is `open`, and otherwise commits with
no delay: the program is removed from RAM, appended unchanged to Virtual
Memory, and 5 points are awarded. -/
theorem C6_virtual_target (s : SimState) (d : DraggedItem)
    (hl : s.isLoading = false) :
    (d.source ≠ "ram" →
      handleDropToVirtual s d = { s with message := Msg.invalidSource }) ∧
    (d.source = "ram" → d.item.removable = false →
      handleDropToVirtual s d = { s with message := Msg.notRemovable }) ∧
    (d.source = "ram" → d.item.removable = true → d.item.status = some "open" →
      handleDropToVirtual s d = { s with message := Msg.mustBeInactiveFirst }) ∧
    (d.source = "ram" → d.item.removable = true → d.item.status ≠ some "open" →
      handleDropToVirtual s d = { s with
        virtualMemory := s.virtualMemory ++ [d.item],
        ram := s.ram.filter (fun p => p.id != d.item.id),
        score := s.score + 5,
        message := Msg.movedToVirtual d.item.id }) ∧
    virtualMoveDelay = 0 :=
  ⟨fun hsrc => dropVirtual_invalidSource d hl hsrc,
   fun hsrc hrem => dropVirtual_notRemovable d hl hsrc hrem,
   fun hsrc hrem hst => dropVirtual_mustBeInactive d hl hsrc hrem hst,
   fun hsrc hrem hst => dropVirtual_commit d hl hsrc hrem hst,
   rfl⟩

/-- Witness for C6: moving the inactive browser of `demoState5` to Virtual
Memory commits. -/
theorem C6_virtual_target_witness :
    handleDropToVirtual demoState5 ⟨browserInactive, "ram"⟩ =
      { demoState5 with
        virtualMemory := demoState5.virtualMemory ++ [browserInactive],
        ram := demoState5.ram.filter (fun p => p.id != "browser"),
        score := demoState5.score + 5,
        message := Msg.movedToVirtual "browser" } :=
  (C6_virtual_target demoState5 ⟨browserInactive, "ram"⟩ (by decide)).2.2.2.1
    rfl rfl (by decide)

/-- C8: any move request whose result message is one of the failure kinds
leaves the three containers, the Task Queue, the score and the phase
unchanged — only the message changes. -/
theorem C8_failed_moves_frame (s : SimState) (d : DraggedItem)
    (hl : s.isLoading = false) :
    (isFailureMsg (handleDropToRAM s d).message = true →
      coreUnchanged s (handleDropToRAM s d)) ∧
    (isFailureMsg (handleDropToVirtual s d).message = true →
      coreUnchanged s (handleDropToVirtual s d)) ∧
    (isFailureMsg (handleDropToSecondary s d).message = true →
      coreUnchanged s (handleDropToSecondary s d)) := by
  refine ⟨?_, ?_, ?_⟩
  · by_cases h1 : d.item.size > currentRAMCapacity s
    · rw [dropRAM_hardLimit d hl h1]
      exact fun _ => ⟨rfl, rfl, rfl, rfl, rfl, rfl⟩
    by_cases h2 : ramSize s.ram + d.item.size > currentRAMCapacity s
    · by_cases h3 : ramSize (activePrograms s.ram) + d.item.size > currentRAMCapacity s
      · rw [dropRAM_unsatisfiable d hl h1 h2 h3]
        exact fun _ => ⟨rfl, rfl, rfl, rfl, rfl, rfl⟩
      by_cases h4 : 0 < ramSize (inactivePrograms s.ram)
      · rw [dropRAM_needsSwap d hl h1 h2 h3 h4]
        exact fun _ => ⟨rfl, rfl, rfl, rfl, rfl, rfl⟩
      · rw [dropRAM_noInactiveToFree d hl h1 h2 h3 h4]
        exact fun _ => ⟨rfl, rfl, rfl, rfl, rfl, rfl⟩
    by_cases h5 : 0 < s.programQueue.length ∧ d.item.id ≠ s.programQueue.headD ""
    · rw [dropRAM_outOfOrder d hl h1 h2 h5]
      exact fun _ => ⟨rfl, rfl, rfl, rfl, rfl, rfl⟩
    by_cases hsec : d.source = "secondary"
    · rw [dropRAM_secondary d hl h1 h2 h5 hsec]
      intro hmsg
      exact absurd hmsg Bool.false_ne_true
    by_cases hvirt : d.source = "virtual"
    · by_cases hmode : s.gameMode = some "challenges"
      · rw [dropRAM_virtual_challenges d hl h1 h2 h5 hvirt hmode]
        intro hmsg
        exact absurd hmsg Bool.false_ne_true
      · rw [dropRAM_virtual_freestyle d hl h1 h2 h5 hvirt hmode]
        intro hmsg
        exact absurd hmsg Bool.false_ne_true
    · rw [dropRAM_noSource d hl h1 h2 h5 hsec hvirt]
      exact fun _ => ⟨rfl, rfl, rfl, rfl, rfl, rfl⟩
  · by_cases hsrc : d.source = "ram"
    case neg =>
      rw [dropVirtual_invalidSource d hl hsrc]
      exact fun _ => ⟨rfl, rfl, rfl, rfl, rfl, rfl⟩
    by_cases hrem : d.item.removable = false
    · rw [dropVirtual_notRemovable d hl hsrc hrem]
      exact fun _ => ⟨rfl, rfl, rfl, rfl, rfl, rfl⟩
    have hremT : d.item.removable = true := by
      cases hb : d.item.removable
      · exact absurd hb hrem
      · rfl
    by_cases hst : d.item.status = some "open"
    · rw [dropVirtual_mustBeInactive d hl hsrc hremT hst]
      exact fun _ => ⟨rfl, rfl, rfl, rfl, rfl, rfl⟩
    · rw [dropVirtual_commit d hl hsrc hremT hst]
      intro hmsg
      exact absurd hmsg Bool.false_ne_true
  · by_cases hA : d.source = "ram" ∧ d.item.status = some "open"
    · rw [dropSecondary_closeRam d hl hA.1 hA.2]
      intro hmsg
      exact absurd hmsg Bool.false_ne_true
    by_cases hB : d.source = "ram" ∧ d.item.status = some "inactive"
    · rw [dropSecondary_inactiveMustSwap d hl hB.1 hB.2]
      exact fun _ => ⟨rfl, rfl, rfl, rfl, rfl, rfl⟩
    by_cases hC : d.source = "virtual"
    · rw [dropSecondary_closeVirtual d hl hC]
      intro hmsg
      exact absurd hmsg Bool.false_ne_true
    · rw [dropSecondary_onlyWhenClosing d hl hA hB hC]
      exact fun _ => ⟨rfl, rfl, rfl, rfl, rfl, rfl⟩

/-- Witness for C8: the failed (Unsatisfiable) os request in `demoState4`
leaves the core state unchanged. -/
theorem C8_failed_moves_frame_witness :
    coreUnchanged demoState4 (handleDropToRAM demoState4 ⟨osProgram, "secondary"⟩) :=
  (C8_failed_moves_frame demoState4 ⟨osProgram, "secondary"⟩ (by decide)).1 (by decide)

/-- C9 counterexample: `demoState3` is reachable with non-empty RAM, and
`resetSimulation` leaves RAM (and Virtual Memory) exactly as they were — it
does not clear the containers, contradicting the claim. -/
theorem C9_counterexample :
    Reachable demoState3 ∧
    demoState3.ram ≠ [] ∧
    (resetSimulation demoState3).ram = demoState3.ram ∧
    (resetSimulation demoState3).ram ≠ [] ∧
    (resetSimulation demoState3).virtualMemory = demoState3.virtualMemory :=
  ⟨reachable_run demoEvents3, by decide, by decide, by decide, by decide⟩

/-- C9 (amended): `resetSimulation` clears only the Task Queue and the
instruction and leaves RAM and Virtual Memory untouched; the containers are
emptied at the next session start, where `startSimulation` sets RAM and
Virtual Memory to empty. -/
theorem C9_amended_reset_and_start (s : SimState) (lv : Option Nat)
    (hlv : s.gameMode = some "challenges" →
      (lv.getD s.currentLevel) - 1 < CHALLENGE_LEVELS.length) :
    (resetSimulation s).ram = s.ram ∧
    (resetSimulation s).virtualMemory = s.virtualMemory ∧
    (resetSimulation s).programQueue = [] ∧
    (resetSimulation s).currentInstruction = "" ∧
    (startSimulation s lv).ram = [] ∧
    (startSimulation s lv).virtualMemory = [] := by
  refine ⟨rfl, rfl, rfl, rfl, ?_, ?_⟩ <;>
    · simp only [startSimulation]
      by_cases hmode : s.gameMode = some "challenges"
      · rw [if_pos hmode, List.getElem?_eq_getElem (hlv hmode)]
      · rw [if_neg hmode]

/-- Witness for the amended C9 at `demoState3`. -/
theorem C9_amended_witness :
    (resetSimulation demoState3).ram = demoState3.ram ∧
    (resetSimulation demoState3).programQueue = [] ∧
    (startSimulation demoState3 none).ram = [] :=
  let h := C9_amended_reset_and_start demoState3 none (fun _ => by decide)
  ⟨h.1, h.2.2.1, h.2.2.2.2.1⟩

/-- C10 (first source variant): no move request ever modifies Secondary
Storage — a committed load from it leaves it unchanged, and a committed close
removes the program from its source container (RAM or Virtual Memory) without
inserting it into Secondary Storage. -/
theorem C10_secondary_storage_fixed (s : SimState) (d : DraggedItem) :
    (handleDropToRAM s d).secondaryStorage = s.secondaryStorage ∧
    (handleDropToVirtual s d).secondaryStorage = s.secondaryStorage ∧
    (handleDropToSecondary s d).secondaryStorage = s.secondaryStorage ∧
    (s.isLoading = false → d.source = "ram" → d.item.status = some "open" →
      (handleDropToSecondary s d).ram = s.ram.filter (fun p => p.id != d.item.id)) ∧
    (s.isLoading = false → d.source = "virtual" →
      (handleDropToSecondary s d).virtualMemory =
        s.virtualMemory.filter (fun p => p.id != d.item.id)) := by
  refine ⟨?_, ?_, ?_, ?_, ?_⟩
  · simp only [handleDropToRAM]
    split_ifs <;> rfl
  · simp only [handleDropToVirtual]
    split_ifs <;> rfl
  · simp only [handleDropToSecondary]
    split_ifs <;> rfl
  · intro hl hsrc hst
    rw [dropSecondary_closeRam d hl hsrc hst]
  · intro hl hsrc
    rw [dropSecondary_closeVirtual d hl hsrc]

/-- Witness for C10: a committed load and a committed close at `demoState3`. -/
theorem C10_secondary_storage_fixed_witness :
    (handleDropToRAM demoState3 ⟨browserProgram, "secondary"⟩).secondaryStorage =
      demoState3.secondaryStorage ∧
    (handleDropToSecondary demoState3 ⟨osOpenProgram, "ram"⟩).ram =
      demoState3.ram.filter (fun p => p.id != "os") :=
  ⟨(C10_secondary_storage_fixed demoState3 ⟨browserProgram, "secondary"⟩).1,
   (C10_secondary_storage_fixed demoState3 ⟨osOpenProgram, "ram"⟩).2.2.2.1
     (by decide) rfl rfl⟩

/-- C7: in every reachable state, a step sets the phase to `Complete` (the
phase changes to `complete`) exactly when the step is a committed `target=RAM`
load (from Secondary Storage or Virtual Memory) that takes the Task Queue from
non-empty to empty. -/
theorem C7_complete_exactly_on_emptying_load (s : SimState) (hr : Reachable s)
    (e : Event) :
    ((step s e).gameState = "complete" ∧ s.gameState ≠ "complete") ↔
    (∃ d, e = Event.dropToRAM d ∧ RamLoadCommitted s d ∧
      s.programQueue ≠ [] ∧ (step s e).programQueue = []) := by
  have h := reachable_inv hr
  cases e with
  | chooseChallenges =>
      constructor
      · rintro ⟨hc, hne⟩
        exfalso
        simp only [step] at hc
        by_cases hg : s.gameState = "start"
        · rw [if_pos hg] at hc
          exact absurd (show ("challenges" : String) = "complete" from hc) (by decide)
        · rw [if_neg hg] at hc
          exact hne hc
      · rintro ⟨d, hd, _⟩
        exact Event.noConfusion hd
  | chooseFreestyle =>
      constructor
      · rintro ⟨hc, hne⟩
        exfalso
        simp only [step] at hc
        by_cases hg : s.gameState = "start"
        · rw [if_pos hg] at hc
          exact absurd (show ("freestyle-setup" : String) = "complete" from hc) (by decide)
        · rw [if_neg hg] at hc
          exact hne hc
      · rintro ⟨d, hd, _⟩
        exact Event.noConfusion hd
  | chooseCapacity n =>
      constructor
      · rintro ⟨hc, hne⟩
        exfalso
        simp only [step] at hc
        by_cases hg : s.gameState = "freestyle-setup" ∧ (n = 2 ∨ n = 4 ∨ n = 8)
        · rw [if_pos hg] at hc
          exact hne hc
        · rw [if_neg hg] at hc
          exact hne hc
      · rintro ⟨d, hd, _⟩
        exact Event.noConfusion hd
  | backToStart =>
      constructor
      · rintro ⟨hc, hne⟩
        exfalso
        simp only [step] at hc
        by_cases hg : s.gameState = "freestyle-setup" ∨ s.gameState = "challenges"
        · rw [if_pos hg] at hc
          exact absurd (show ("start" : String) = "complete" from hc) (by decide)
        · rw [if_neg hg] at hc
          exact hne hc
      · rintro ⟨d, hd, _⟩
        exact Event.noConfusion hd
  | startFreestyle =>
      constructor
      · rintro ⟨hc, hne⟩
        exfalso
        simp only [step] at hc
        by_cases hg : s.gameState = "freestyle-setup"
        · rw [if_pos hg] at hc
          rcases startSimulation_gameState s none with hgs | hgs
          · rw [hgs] at hc
            exact absurd hc (by decide)
          · rw [hgs] at hc
            exact hne hc
        · rw [if_neg hg] at hc
          exact hne hc
      · rintro ⟨d, hd, _⟩
        exact Event.noConfusion hd
  | selectLevel n =>
      constructor
      · rintro ⟨hc, hne⟩
        exfalso
        simp only [step] at hc
        by_cases hg : s.gameState = "challenges" ∧ 1 ≤ n ∧ n ≤ CHALLENGE_LEVELS.length
        · rw [if_pos hg] at hc
          rcases startSimulation_gameState { s with currentLevel := n } (some n) with hgs | hgs
          · rw [hgs] at hc
            exact absurd hc (by decide)
          · rw [hgs] at hc
            exact hne hc
        · rw [if_neg hg] at hc
          exact hne hc
      · rintro ⟨d, hd, _⟩
        exact Event.noConfusion hd
  | resetClick =>
      constructor
      · rintro ⟨hc, hne⟩
        exfalso
        simp only [step] at hc
        by_cases hg : inSim s
        · rw [if_pos hg] at hc
          have hc' : (if s.gameMode = some "challenges" then ("challenges" : String)
              else "start") = "complete" := hc
          by_cases hm : s.gameMode = some "challenges"
          · rw [if_pos hm] at hc'
            exact absurd hc' (by decide)
          · rw [if_neg hm] at hc'
            exact absurd hc' (by decide)
        · rw [if_neg hg] at hc
          exact hne hc
      · rintro ⟨d, hd, _⟩
        exact Event.noConfusion hd
  | nextLevelClick =>
      constructor
      · rintro ⟨hc, hne⟩
        exfalso
        simp only [step] at hc
        by_cases hg : s.gameState = "complete" ∧ s.gameMode = some "challenges" ∧
            s.currentLevel < CHALLENGE_LEVELS.length
        · exact hne hg.1
        · rw [if_neg hg] at hc
          exact hne hc
      · rintro ⟨d, hd, _⟩
        exact Event.noConfusion hd
  | dropToVirtual d =>
      constructor
      · rintro ⟨hc, hne⟩
        exfalso
        simp only [step] at hc
        by_cases hg : inSim s
        · rw [if_pos hg, dropVirtual_gameState] at hc
          exact hne hc
        · rw [if_neg hg] at hc
          exact hne hc
      · rintro ⟨d', hd, _⟩
        exact Event.noConfusion hd
  | dropToSecondary d =>
      constructor
      · rintro ⟨hc, hne⟩
        exfalso
        simp only [step] at hc
        by_cases hg : inSim s
        · rw [if_pos hg, dropSecondary_gameState] at hc
          exact hne hc
        · rw [if_neg hg] at hc
          exact hne hc
      · rintro ⟨d', hd, _⟩
        exact Event.noConfusion hd
  | clickProgram pid =>
      constructor
      · rintro ⟨hc, hne⟩
        exfalso
        simp only [step] at hc
        by_cases hg : inSim s
        · rw [if_pos hg] at hc
          cases hfind : s.ram.find? (fun p => p.id == pid) with
          | some p =>
              rw [hfind] at hc
              have hc' : (if p.removable = true then toggleProgramStatus s pid
                  else s).gameState = "complete" := hc
              by_cases hrem : p.removable = true
              · rw [if_pos hrem, toggle_gameState] at hc'
                exact hne hc'
              · rw [if_neg hrem] at hc'
                exact hne hc'
          | none =>
              rw [hfind] at hc
              exact hne hc
        · rw [if_neg hg] at hc
          exact hne hc
      · rintro ⟨d', hd, _⟩
        exact Event.noConfusion hd
  | dropToRAM d =>
      simp only [step]
      by_cases hin : inSim s
      case neg =>
        rw [if_neg hin]
        constructor
        · rintro ⟨hc, hne⟩
          exact (hne hc).elim
        · rintro ⟨d', hd', hcom, _, _⟩
          injection hd' with hd'
          subst hd'
          exact absurd hcom.1 hin
      case pos =>
        rw [if_pos hin]
        by_cases h1 : d.item.size > currentRAMCapacity s
        · rw [dropRAM_hardLimit d h.loading h1]
          constructor
          · rintro ⟨hc, hne⟩
            exact (hne hc).elim
          · rintro ⟨d', hd', hcom, _, _⟩
            injection hd' with hd'
            subst hd'
            exact absurd h1 hcom.2.1
        by_cases h2 : ramSize s.ram + d.item.size > currentRAMCapacity s
        · by_cases h3 : ramSize (activePrograms s.ram) + d.item.size > currentRAMCapacity s
          · rw [dropRAM_unsatisfiable d h.loading h1 h2 h3]
            constructor
            · rintro ⟨hc, hne⟩
              exact (hne hc).elim
            · rintro ⟨d', hd', hcom, _, _⟩
              injection hd' with hd'
              subst hd'
              exact absurd h2 hcom.2.2.1
          by_cases h4 : 0 < ramSize (inactivePrograms s.ram)
          · rw [dropRAM_needsSwap d h.loading h1 h2 h3 h4]
            constructor
            · rintro ⟨hc, hne⟩
              exact (hne hc).elim
            · rintro ⟨d', hd', hcom, _, _⟩
              injection hd' with hd'
              subst hd'
              exact absurd h2 hcom.2.2.1
          · rw [dropRAM_noInactiveToFree d h.loading h1 h2 h3 h4]
            constructor
            · rintro ⟨hc, hne⟩
              exact (hne hc).elim
            · rintro ⟨d', hd', hcom, _, _⟩
              injection hd' with hd'
              subst hd'
              exact absurd h2 hcom.2.2.1
        by_cases h5 : 0 < s.programQueue.length ∧ d.item.id ≠ s.programQueue.headD ""
        · rw [dropRAM_outOfOrder d h.loading h1 h2 h5]
          constructor
          · rintro ⟨hc, hne⟩
            exact (hne hc).elim
          · rintro ⟨d', hd', hcom, _, _⟩
            injection hd' with hd'
            subst hd'
            exact absurd h5 hcom.2.2.2.1
        by_cases hsec : d.source = "secondary"
        · rw [dropRAM_secondary d h.loading h1 h2 h5 hsec]
          by_cases hq : 0 < (s.programQueue.drop 1).length
          · constructor
            · rintro ⟨hc, hne⟩
              have hc' : (if 0 < (s.programQueue.drop 1).length then s.gameState
                  else "complete") = "complete" := hc
              rw [if_pos hq] at hc'
              exact (hne hc').elim
            · rintro ⟨d', hd', _, _, hq'⟩
              have hq'' : s.programQueue.drop 1 = [] := hq'
              rw [hq''] at hq
              exact absurd hq (by decide)
          · have hnil : s.programQueue.drop 1 = [] :=
              List.eq_nil_of_length_eq_zero (by omega)
            rcases hin with hrun | hcompl
            · constructor
              · intro _
                exact ⟨d, rfl, ⟨Or.inl hrun, h1, h2, h5, Or.inl hsec⟩,
                  h.runQueue hrun, hnil⟩
              · intro _
                refine ⟨?_, ?_⟩
                · show (if 0 < (s.programQueue.drop 1).length then s.gameState
                    else "complete") = "complete"
                  rw [if_neg hq]
                · rw [hrun]
                  decide
            · constructor
              · rintro ⟨_, hne⟩
                exact (hne hcompl).elim
              · rintro ⟨d', _, _, hqe, _⟩
                exact (hqe (h.completeQueue hcompl)).elim
        by_cases hvirt : d.source = "virtual"
        · by_cases hmode : s.gameMode = some "challenges"
          · rw [dropRAM_virtual_challenges d h.loading h1 h2 h5 hvirt hmode]
            by_cases hq : 0 < (s.programQueue.drop 1).length
            · constructor
              · rintro ⟨hc, hne⟩
                have hc' : (if 0 < (s.programQueue.drop 1).length then s.gameState
                    else "complete") = "complete" := hc
                rw [if_pos hq] at hc'
                exact (hne hc').elim
              · rintro ⟨d', hd', _, _, hq'⟩
                have hq'' : s.programQueue.drop 1 = [] := hq'
                rw [hq''] at hq
                exact absurd hq (by decide)
            · have hnil : s.programQueue.drop 1 = [] :=
                List.eq_nil_of_length_eq_zero (by omega)
              rcases hin with hrun | hcompl
              · constructor
                · intro _
                  exact ⟨d, rfl, ⟨Or.inl hrun, h1, h2, h5, Or.inr hvirt⟩,
                    h.runQueue hrun, hnil⟩
                · intro _
                  refine ⟨?_, ?_⟩
                  · show (if 0 < (s.programQueue.drop 1).length then s.gameState
                      else "complete") = "complete"
                    rw [if_neg hq]
                  · rw [hrun]
                    decide
              · constructor
                · rintro ⟨_, hne⟩
                  exact (hne hcompl).elim
                · rintro ⟨d', _, _, hqe, _⟩
                  exact (hqe (h.completeQueue hcompl)).elim
          · rw [dropRAM_virtual_freestyle d h.loading h1 h2 h5 hvirt hmode]
            constructor
            · rintro ⟨hc, hne⟩
              exact (hne hc).elim
            · rintro ⟨d', hd', hcom, hqe, hq'⟩
              have hq'' : s.programQueue = [] := hq'
              exact (hqe hq'').elim
        · rw [dropRAM_noSource d h.loading h1 h2 h5 hsec hvirt]
          constructor
          · rintro ⟨hc, hne⟩
            exact (hne hc).elim
          · rintro ⟨d', hd', hcom, _, _⟩
            injection hd' with hd'
            subst hd'
            rcases hcom.2.2.2.2 with hs' | hs'
            · exact absurd hs' hsec
            · exact absurd hs' hvirt

/-- Witness for C7 at the reachable state `demoState2` with a load event. -/
theorem C7_witness :
    ((step demoState2 (Event.dropToRAM ⟨osProgram, "secondary"⟩)).gameState =
        "complete" ∧ demoState2.gameState ≠ "complete") ↔
    (∃ d, Event.dropToRAM ⟨osProgram, "secondary"⟩ = Event.dropToRAM d ∧
      RamLoadCommitted demoState2 d ∧ demoState2.programQueue ≠ [] ∧
      (step demoState2 (Event.dropToRAM ⟨osProgram, "secondary"⟩)).programQueue = []) :=
  C7_complete_exactly_on_emptying_load demoState2 (reachable_run demoEvents2)
    (Event.dropToRAM ⟨osProgram, "secondary"⟩)
